import Mathlib

/-!
Shallow embedding of the datahub metadata-ingestion excerpt:

* `src/metadata-ingestion/src/datahub/configuration/time_window_config.py`
* `src/metadata-ingestion/src/datahub/ingestion/source/state/redundant_run_skip_handler.py`
* `src/metadata-ingestion/src/datahub/ingestion/source/snowflake/snowflake_report.py`
* `src/metadata-ingestion/src/datahub/ingestion/source/bigquery_v2/bigquery_schema.py`

Python `datetime` values are modelled as integers counting microseconds since
the Unix epoch (the resolution of `datetime`).  All datetimes handled by
`BaseTimeWindowConfig` are UTC (enforced by its validators), and the Unix epoch
is aligned to a UTC midnight, so `replace(minute=0, second=0, microsecond=0)`
is truncation modulo one hour of microseconds, and
`replace(hour=0, minute=0, second=0, microsecond=0)` is truncation modulo one
day of microseconds.  `timedelta` values are likewise microsecond counts.
-/

namespace TimeWindowConfig

/-- The `BucketDuration` enum from `time_window_config.py` (values DAY / HOUR). -/
inductive BucketDuration where
  | DAY
  | HOUR
deriving DecidableEq, Repr

/-- Microseconds in one hour. -/
def microsPerHour : Int := 3600000000

/-- Microseconds in one day. -/
def microsPerDay : Int := 86400000000

/-- The `get_time_bucket`: floors the timestamp to the closest day or hour.
For a UTC datetime, zeroing minute/second/microsecond (resp. also hour) is
truncation modulo an hour (resp. a day) of microseconds. -/
def get_time_bucket (original : Int) (bucketing : BucketDuration) : Int :=
  if bucketing = BucketDuration.HOUR then
    original - original % microsPerHour
  else  -- day
    original - original % microsPerDay

/-- The `get_bucket_duration_delta`: the `timedelta` of one bucket, in microseconds. -/
def get_bucket_duration_delta (bucketing : BucketDuration) : Int :=
  if bucketing = BucketDuration.HOUR then
    microsPerHour
  else  -- day
    microsPerDay

/-- The fields of `BaseTimeWindowConfig` used by `buckets` / `majority_buckets`
(after validation both timestamps are UTC datetimes, modelled as microsecond
counts). -/
structure BaseTimeWindowConfig where
  bucket_duration : BucketDuration
  end_time : Int
  start_time : Int
deriving Repr

/-- The `while curr_bucket < self.end_time` loop of `BaseTimeWindowConfig.buckets`:
append the current bucket and advance by one bucket duration. -/
def bucketsLoop (end_time : Int) (bucketing : BucketDuration) (curr_bucket : Int) :
    List Int :=
  if curr_bucket < end_time then
    curr_bucket :: bucketsLoop end_time bucketing
      (curr_bucket + get_bucket_duration_delta bucketing)
  else
    []
termination_by (end_time - curr_bucket).toNat
decreasing_by
  have hd : 0 < get_bucket_duration_delta bucketing := by
    cases bucketing <;> decide
  omega

/-- The `BaseTimeWindowConfig.buckets`: all buckets of the window, including
partially contained ones. -/
def buckets (c : BaseTimeWindowConfig) : List Int :=
  bucketsLoop c.end_time c.bucket_duration
    (get_time_bucket c.start_time c.bucket_duration)

/-- The loop of `BaseTimeWindowConfig.majority_buckets`: a bucket is kept when
`min(end_time, curr + delta) - max(start_time, curr) >= delta / 2`. -/
def majorityLoop (start_time end_time : Int) (bucketing : BucketDuration)
    (curr_bucket : Int) : List Int :=
  if curr_bucket < end_time then
    let s := max start_time curr_bucket
    let e := min end_time (curr_bucket + get_bucket_duration_delta bucketing)
    if e - s ≥ get_bucket_duration_delta bucketing / 2 then
      curr_bucket :: majorityLoop start_time end_time bucketing
        (curr_bucket + get_bucket_duration_delta bucketing)
    else
      majorityLoop start_time end_time bucketing
        (curr_bucket + get_bucket_duration_delta bucketing)
  else
    []
termination_by (end_time - curr_bucket).toNat
decreasing_by
  all_goals
    have hd : 0 < get_bucket_duration_delta bucketing := by
      cases bucketing <;> decide
    omega

/-- The `BaseTimeWindowConfig.majority_buckets`: only buckets of the window for
which a majority of the bucket is ingested. -/
def majority_buckets (c : BaseTimeWindowConfig) : List Int :=
  majorityLoop c.start_time c.end_time c.bucket_duration
    (get_time_bucket c.start_time c.bucket_duration)

/-- The `default_start_time` pre-validator: when the user supplies no
`start_time` (Python `None`, falsy), derive it as
`get_time_bucket(end_time - delta, bucket_duration)`. -/
def default_start_time (v : Option Int) (end_time : Int)
    (bucket_duration : BucketDuration) : Int :=
  match v with
  | some t => t
  | none =>
      get_time_bucket (end_time - get_bucket_duration_delta bucket_duration)
        bucket_duration

/-- A raw datetime as supplied by the user, before validation: a microsecond
timestamp plus its `tzinfo`.  `none` models a naive datetime; `some off` models
a fixed-offset timezone of `off` minutes; the Python `timezone.utc` object is
the fixed offset 0 (Python `timezone` equality is equality of offsets). -/
structure TZDatetime where
  value : Int
  tzinfo : Option Int
deriving DecidableEq, Repr

/-- The offset of `timezone.utc`, in minutes. -/
def utcTz : Option Int := some 0

/-- The `ensure_timestamps_in_utc` validator: raise `ValueError` when
`v.tzinfo != timezone.utc`, otherwise return `v` unchanged. -/
def ensure_timestamps_in_utc (v : TZDatetime) : Except String TZDatetime :=
  if v.tzinfo = utcTz then
    Except.ok v
  else
    Except.error
      "timezone is not UTC; try adding a Z to the value e.g. 2021-07-20T00:00:00Z"

end TimeWindowConfig

namespace RedundantRunSkip

/-- The `BaseUsageCheckpointState`: the persisted checkpoint state, two millisecond
timestamps. -/
structure BaseUsageCheckpointState where
  begin_timestamp_millis : Int
  end_timestamp_millis : Int
deriving DecidableEq, Repr

/-- The `Checkpoint[BaseUsageCheckpointState]` as built by `create_checkpoint` /
returned by `get_last_checkpoint`.  The `state` field of a Python `Checkpoint`
is a pydantic model, hence always truthy. -/
structure Checkpoint where
  job_name : String
  pipeline_name : String
  run_id : String
  state : BaseUsageCheckpointState
deriving DecidableEq, Repr

/-- The `StatefulRedundantRunSkipConfig`: `ignore_old_state` (alias `force_rerun`)
declared in `redundant_run_skip_handler.py`, `ignore_new_state` inherited from
`StatefulIngestionConfig`. -/
structure StatefulRedundantRunSkipConfig where
  ignore_old_state : Bool
  ignore_new_state : Bool
deriving DecidableEq, Repr

/-- The `RedundantRunSkipHandler.INVALID_TIMESTAMP_VALUE`. -/
def INVALID_TIMESTAMP_VALUE : Int := 1

/-- The fields of `RedundantRunSkipHandler` that its methods read.  The result
of `state_provider.get_last_checkpoint` (an external collaborator) is passed to
`should_skip_this_run` as an explicit argument. -/
structure RedundantRunSkipHandler where
  pipeline_name : Option String
  run_id : String
  checkpointing_enabled : Bool
  stateful_ingestion_config : Option StatefulRedundantRunSkipConfig
  job_id : String
deriving DecidableEq, Repr

/-- The `RedundantRunSkipHandler._ignore_old_state`. -/
def RedundantRunSkipHandler.ignore_old_state_flag (h : RedundantRunSkipHandler) :
    Bool :=
  match h.stateful_ingestion_config with
  | some cfg => cfg.ignore_old_state
  | none => false

/-- The `RedundantRunSkipHandler._ignore_new_state`. -/
def RedundantRunSkipHandler.ignore_new_state_flag (h : RedundantRunSkipHandler) :
    Bool :=
  match h.stateful_ingestion_config with
  | some cfg => cfg.ignore_new_state
  | none => false

/-- The `RedundantRunSkipHandler.is_checkpointing_enabled`. -/
def RedundantRunSkipHandler.is_checkpointing_enabled
    (h : RedundantRunSkipHandler) : Bool :=
  h.checkpointing_enabled

/-- The `RedundantRunSkipHandler.create_checkpoint`.  `Except.error` models the
`assert self.pipeline_name is not None` failing. -/
def RedundantRunSkipHandler.create_checkpoint (h : RedundantRunSkipHandler) :
    Except String (Option Checkpoint) :=
  if !h.is_checkpointing_enabled || h.ignore_new_state_flag then
    Except.ok none
  else
    match h.pipeline_name with
    | none => Except.error "AssertionError"
    | some pn =>
        Except.ok (some
          { job_name := h.job_id
            pipeline_name := pn
            run_id := h.run_id
            state :=
              { begin_timestamp_millis := INVALID_TIMESTAMP_VALUE
                end_timestamp_millis := INVALID_TIMESTAMP_VALUE } })

/-- The `RedundantRunSkipHandler.should_skip_this_run`.  `last_checkpoint` is what
`state_provider.get_last_checkpoint` returned; the source guard
`if last_checkpoint and last_checkpoint.state` reduces to `last_checkpoint`
being non-`None` because a pydantic state object is always truthy. -/
def RedundantRunSkipHandler.should_skip_this_run (h : RedundantRunSkipHandler)
    (last_checkpoint : Option Checkpoint) (cur_start_time_millis : Int) : Bool :=
  if !h.is_checkpointing_enabled || h.ignore_old_state_flag then
    false
  else
    let last_end : Option Int :=
      match last_checkpoint with
      | some cp => some cp.state.end_timestamp_millis
      | none => none
    match last_end with
    | some e =>
        if cur_start_time_millis ≤ e then
          true  -- the source also logs a warning here
        else
          false
    | none => false

end RedundantRunSkip

namespace SnowflakeReport

/-- The fields of `SnowflakeV2Report` touched by `report_entity_scanned`
(`tables_scanned` / `views_scanned` come from the report base classes; all
start at 0).  Python sets are modelled as duplicate-free lists: `_scanned_tags`
is only ever grown through a membership guard. -/
structure SnowflakeV2Report where
  tables_scanned : Nat
  views_scanned : Nat
  schemas_scanned : Nat
  databases_scanned : Nat
  tags_scanned : Nat
  scanned_tags : List String
deriving DecidableEq, Repr

/-- A fresh report: every counter 0, every set empty (the dataclass defaults). -/
def initSnowflakeV2Report : SnowflakeV2Report :=
  { tables_scanned := 0
    views_scanned := 0
    schemas_scanned := 0
    databases_scanned := 0
    tags_scanned := 0
    scanned_tags := [] }

/-- The `SnowflakeV2Report._is_tag_scanned`. -/
def SnowflakeV2Report.is_tag_scanned (r : SnowflakeV2Report)
    (tag_name : String) : Bool :=
  r.scanned_tags.contains tag_name

/-- The `SnowflakeV2Report.report_entity_scanned`.  `Except.error` models the
`raise KeyError` on an unknown entity type. -/
def SnowflakeV2Report.report_entity_scanned (r : SnowflakeV2Report)
    (name : String) (ent_type : String) : Except String SnowflakeV2Report :=
  if ent_type = "table" then
    Except.ok { r with tables_scanned := r.tables_scanned + 1 }
  else if ent_type = "view" then
    Except.ok { r with views_scanned := r.views_scanned + 1 }
  else if ent_type = "schema" then
    Except.ok { r with schemas_scanned := r.schemas_scanned + 1 }
  else if ent_type = "database" then
    Except.ok { r with databases_scanned := r.databases_scanned + 1 }
  else if ent_type = "tag" then
    -- the same tag can be assigned to multiple objects: count each tag once
    if r.is_tag_scanned name then
      Except.ok r
    else
      Except.ok { r with
        scanned_tags := name :: r.scanned_tags
        tags_scanned := r.tags_scanned + 1 }
  else
    Except.error ("Unknown entity " ++ ent_type ++ ".")

/-- One call of `report_entity_scanned` on a mutable report: a raising call
propagates the exception and leaves the report object unchanged, so for
sequencing purposes it keeps the previous state. -/
def applyCall (r : SnowflakeV2Report) (c : String × String) : SnowflakeV2Report :=
  match r.report_entity_scanned c.1 c.2 with
  | Except.ok r2 => r2
  | Except.error _ => r

/-- A sequence of `report_entity_scanned` calls, each `(name, ent_type)`. -/
def runCalls (r : SnowflakeV2Report) (cs : List (String × String)) :
    SnowflakeV2Report :=
  cs.foldl applyCall r

/-- The names of the calls of a sequence carrying `ent_type = "tag"`. -/
def tagNames (cs : List (String × String)) : List String :=
  (cs.filter (fun c => c.2 == "tag")).map (fun c => c.1)

end SnowflakeReport

namespace BigquerySchema

/-- The `BigqueryColumn` (a `BaseColumn` plus `field_path`, `is_partition_column`). -/
structure BigqueryColumn where
  name : String
  ordinal_position : Nat
  field_path : String
  is_nullable : Bool
  data_type : String
  comment : Option String
  is_partition_column : Bool
deriving DecidableEq, Repr

/-- A row of the `columns_for_dataset` / `columns_for_table` query results, with
the attributes the loops read. -/
structure ColumnRow where
  table_name : String
  column_name : String
  ordinal_position : Nat
  field_path : String
  is_nullable : String
  data_type : String
  comment : Option String
  is_partitioning_column : String
deriving DecidableEq, Repr

/-- The `BigqueryColumn(...)` constructor call shared by both column loops. -/
def makeColumn (column : ColumnRow) : BigqueryColumn :=
  { name := column.column_name
    ordinal_position := column.ordinal_position
    field_path := column.field_path
    is_nullable := column.is_nullable = "YES"
    data_type := column.data_type
    comment := column.comment
    is_partition_column := column.is_partitioning_column = "YES" }

/-- Truthiness of the Python `column_limit` operand of `and`: `None` and `0`
are falsy, every other int truthy. -/
def limitTruthy : Option Int → Bool
  | some n => n != 0
  | none => false

/-- Python `==` between a `str` and a `BigqueryColumn`: always `False`
(`str.__eq__` returns `NotImplemented` and the dataclass `__eq__` only accepts
instances of its own class).  This decides `column.table_name in columns` when
`columns` is a `List[BigqueryColumn]`. -/
def strEqBigqueryColumn (_ : String) (_ : BigqueryColumn) : Bool :=
  false

/-- State of the `get_columns_for_dataset` loop: the `defaultdict(list)` as an
association list (insertion order), the `last_seen_table` marker and the
`logger.warning` messages issued so far. -/
structure DatasetColsState where
  columns : List (String × List BigqueryColumn)
  last_seen_table : String
  logs : List String
deriving DecidableEq, Repr

/-- Python `column.table_name in columns` for the `defaultdict` (key presence,
no entry creation). -/
def dictContains (d : List (String × List BigqueryColumn)) (k : String) : Bool :=
  d.any (fun p => p.1 == k)

/-- The `columns[column.table_name]` read on the `defaultdict` (missing key reads
as the empty list). -/
def dictGet (d : List (String × List BigqueryColumn)) (k : String) :
    List BigqueryColumn :=
  match d.find? (fun p => p.1 == k) with
  | some p => p.2
  | none => []

/-- The `columns[column.table_name].append(c)` on the `defaultdict`: create the
entry on first use, then append in place. -/
def dictAppend (d : List (String × List BigqueryColumn)) (k : String)
    (c : BigqueryColumn) : List (String × List BigqueryColumn) :=
  match d with
  | [] => [(k, [c])]
  | p :: rest =>
      if p.1 = k then (p.1, p.2 ++ [c]) :: rest
      else p :: dictAppend rest k c

/-- The `for column in cur` loop of `get_columns_for_dataset`: an over-limit
column of an already-full table is dropped, with one warning per contiguous
run of such rows (`last_seen_table` is only updated inside that branch);
otherwise the column is appended to its table entry. -/
def get_columns_for_dataset_loop (project_id dataset_name : String)
    (column_limit : Int) (rows : List ColumnRow) (st : DatasetColsState) :
    DatasetColsState :=
  match rows with
  | [] => st
  | column :: rest =>
      if column_limit != 0
          && dictContains st.columns column.table_name
          && decide (column_limit ≤ ((dictGet st.columns column.table_name).length : Int)) then
        let st2 :=
          if st.last_seen_table ≠ column.table_name then
            { st with
              logs := st.logs ++
                [project_id ++ "." ++ dataset_name ++ "." ++ column.table_name ++
                  " contains more than " ++ toString column_limit ++
                  " columns, only processing " ++ toString column_limit ++ " columns"]
              last_seen_table := column.table_name }
          else
            st
        get_columns_for_dataset_loop project_id dataset_name column_limit rest st2
      else
        get_columns_for_dataset_loop project_id dataset_name column_limit rest
          { st with
            columns := dictAppend st.columns column.table_name (makeColumn column) }

/-- The `BigQueryDataDictionary.get_columns_for_dataset` applied to the rows the
query returned (the surrounding query try/except is outside this claim). -/
def get_columns_for_dataset (project_id dataset_name : String)
    (column_limit : Int) (rows : List ColumnRow) : DatasetColsState :=
  get_columns_for_dataset_loop project_id dataset_name column_limit rows
    { columns := [], last_seen_table := "", logs := [] }

/-- State of the `get_columns_for_table` loop: the plain `List[BigqueryColumn]`
accumulator, `last_seen_table` (updated after every row) and the warnings. -/
structure TableColsState where
  columns : List BigqueryColumn
  last_seen_table : String
  logs : List String
deriving DecidableEq, Repr

/-- The `for column in cur` loop of `get_columns_for_table`.  Here `columns` is
a *list*, so `column.table_name in columns` compares a `str` with
`BigqueryColumn` values and is always `False`; were it ever `True`, the next
conjunct `len(columns[column.table_name])` would index the list with a `str`
and raise `TypeError` (modelled by `Except.error`). -/
def get_columns_for_table_loop (column_limit : Option Int)
    (rows : List ColumnRow) (st : TableColsState) :
    Except String TableColsState :=
  match rows with
  | [] => Except.ok st
  | column :: rest =>
      if limitTruthy column_limit
          && st.columns.any (fun c => strEqBigqueryColumn column.table_name c) then
        Except.error "TypeError: list indices must be integers or slices, not str"
      else
        get_columns_for_table_loop column_limit rest
          { st with
            columns := st.columns ++ [makeColumn column]
            last_seen_table := column.table_name }

/-- The `BigQueryDataDictionary.get_columns_for_table` applied to the rows the
query returned. -/
def get_columns_for_table (column_limit : Option Int) (rows : List ColumnRow) :
    Except String TableColsState :=
  get_columns_for_table_loop column_limit rows
    { columns := [], last_seen_table := "", logs := [] }

/-- What a per-row generator produced over a whole cursor: the objects yielded,
the `logger.warning` messages and the `report.report_warning` calls. -/
structure ProcessResult (α : Type) where
  yielded : List α
  logs : List String
  report_warnings : List String
deriving Repr

/-- The `BigQueryDataDictionary.get_tables_for_dataset` from the cursor on:
`make_bigquery_table` abstracts `_make_bigquery_table` (which may raise),
`name_of` reads `row.table_name`, `report` is the optional `BigQueryV2Report`.
A failing row is logged, reported as a warning when a report is provided, and
skipped; iteration continues with the remaining rows. -/
def get_tables_for_dataset {Row Table : Type}
    (make_bigquery_table : Row → Except String Table) (name_of : Row → String)
    (project_id dataset_name : String) (report : Option Unit)
    (rows : List Row) : ProcessResult Table :=
  match rows with
  | [] => { yielded := [], logs := [], report_warnings := [] }
  | r :: rest =>
      let res := get_tables_for_dataset make_bigquery_table name_of
        project_id dataset_name report rest
      match make_bigquery_table r with
      | Except.ok t => { res with yielded := t :: res.yielded }
      | Except.error e =>
          let table_name := project_id ++ "." ++ dataset_name ++ "." ++ name_of r
          { res with
            logs := ("Error while processing table " ++ table_name) :: res.logs
            report_warnings :=
              if report.isSome then
                ("Failed to get table " ++ table_name ++ ": " ++ e)
                  :: res.report_warnings
              else
                res.report_warnings }

/-- The `BigQueryDataDictionary.get_views_for_dataset` from the cursor on, with
`make_bigquery_view` abstracting `_make_bigquery_view`. -/
def get_views_for_dataset {Row View : Type}
    (make_bigquery_view : Row → Except String View) (name_of : Row → String)
    (project_id dataset_name : String) (report : Option Unit)
    (rows : List Row) : ProcessResult View :=
  match rows with
  | [] => { yielded := [], logs := [], report_warnings := [] }
  | r :: rest =>
      let res := get_views_for_dataset make_bigquery_view name_of
        project_id dataset_name report rest
      match make_bigquery_view r with
      | Except.ok v => { res with yielded := v :: res.yielded }
      | Except.error e =>
          let view_name := project_id ++ "." ++ dataset_name ++ "." ++ name_of r
          { res with
            logs := ("Error while processing view " ++ view_name) :: res.logs
            report_warnings :=
              if report.isSome then
                ("Failed to get view " ++ view_name ++ ": " ++ e)
                  :: res.report_warnings
              else
                res.report_warnings }

/-- First of two rows of the same table `t`, to exercise the column loops. -/
def c2Row1 : ColumnRow :=
  { table_name := "t"
    column_name := "c1"
    ordinal_position := 1
    field_path := "c1"
    is_nullable := "YES"
    data_type := "INT64"
    comment := none
    is_partitioning_column := "NO" }

/-- Second row of the same table `t`. -/
def c2Row2 : ColumnRow :=
  { table_name := "t"
    column_name := "c2"
    ordinal_position := 2
    field_path := "c2"
    is_nullable := "YES"
    data_type := "INT64"
    comment := none
    is_partitioning_column := "NO" }

/-- The `Except.toOption`, inlined for stability. -/
def exceptToOption {ε α : Type} : Except ε α → Option α
  | Except.ok a => some a
  | Except.error _ => none

/-- Whether an `Except` result is a success. -/
def exceptIsOk {ε α : Type} : Except ε α → Bool
  | Except.ok _ => true
  | Except.error _ => false

end BigquerySchema

namespace TimeWindowConfig

/-- One bucket duration is a positive number of microseconds. -/
lemma delta_pos (bk : BucketDuration) : 0 < get_bucket_duration_delta bk := by
  cases bk <;> decide

/-- Half a bucket duration is still positive. -/
lemma half_delta_pos (bk : BucketDuration) : 0 < get_bucket_duration_delta bk / 2 := by
  cases bk <;> decide

/-- Day buckets are 86400000000 microseconds long. -/
lemma delta_DAY : get_bucket_duration_delta BucketDuration.DAY = microsPerDay := rfl

/-- Hour buckets are 3600000000 microseconds long. -/
lemma delta_HOUR : get_bucket_duration_delta BucketDuration.HOUR = microsPerHour := rfl

/-- Flooring to the bucket boundary is truncation modulo the bucket duration. -/
lemma get_time_bucket_eq (t : Int) (bk : BucketDuration) :
    get_time_bucket t bk = t - t % get_bucket_duration_delta bk := by
  cases bk <;> rfl

/-- Membership in the `majority_buckets` loop, started at any aligned or
unaligned `curr`: exactly the grid points `curr + k * delta` (`k ≥ 0`) whose
bucket interval overlaps `[st, en)` in at least half a bucket. -/
theorem mem_majorityLoop (st en : Int) (bk : BucketDuration) (curr b : Int) :
    b ∈ majorityLoop st en bk curr ↔
      (curr ≤ b ∧ get_bucket_duration_delta bk ∣ (b - curr) ∧
       min en (b + get_bucket_duration_delta bk) - max st b ≥
         get_bucket_duration_delta bk / 2) := by
  have hD := delta_pos bk
  have hD2 := half_delta_pos bk
  induction curr using majorityLoop.induct st en bk with
  | case1 curr hlt s0 e0 hcond ih =>
      rw [majorityLoop.eq_def, if_pos hlt]
      simp only [s0, e0] at hcond
      rw [if_pos hcond]
      simp only [List.mem_cons, ih]
      constructor
      · rintro (rfl | ⟨hle, hdvd, hcnd⟩)
        · exact ⟨le_refl _, ⟨0, by ring⟩, hcond⟩
        · refine ⟨by omega, ?_, hcnd⟩
          have hb : b - curr = (b - (curr + get_bucket_duration_delta bk)) +
              get_bucket_duration_delta bk := by ring
          rw [hb]
          exact dvd_add hdvd dvd_rfl
      · rintro ⟨hle, hdvd, hcnd⟩
        by_cases hb : b = curr
        · exact Or.inl hb
        · right
          have hpos : 0 < b - curr := by omega
          have hDle : get_bucket_duration_delta bk ≤ b - curr := Int.le_of_dvd hpos hdvd
          refine ⟨by omega, ?_, hcnd⟩
          have hb2 : b - (curr + get_bucket_duration_delta bk) =
              (b - curr) - get_bucket_duration_delta bk := by ring
          rw [hb2]
          exact dvd_sub hdvd dvd_rfl
  | case2 curr hlt s0 e0 hcond ih =>
      rw [majorityLoop.eq_def, if_pos hlt]
      simp only [s0, e0] at hcond
      rw [if_neg hcond]
      simp only [ih]
      constructor
      · rintro ⟨hle, hdvd, hcnd⟩
        refine ⟨by omega, ?_, hcnd⟩
        have hb : b - curr = (b - (curr + get_bucket_duration_delta bk)) +
            get_bucket_duration_delta bk := by ring
        rw [hb]
        exact dvd_add hdvd dvd_rfl
      · rintro ⟨hle, hdvd, hcnd⟩
        by_cases hb : b = curr
        · subst hb
          exact absurd hcnd hcond
        · have hpos : 0 < b - curr := by omega
          have hDle : get_bucket_duration_delta bk ≤ b - curr := Int.le_of_dvd hpos hdvd
          refine ⟨by omega, ?_, hcnd⟩
          have hb2 : b - (curr + get_bucket_duration_delta bk) =
              (b - curr) - get_bucket_duration_delta bk := by ring
          rw [hb2]
          exact dvd_sub hdvd dvd_rfl
  | case3 curr hlt =>
      rw [majorityLoop.eq_def, if_neg hlt]
      simp only [List.not_mem_nil, false_iff]
      rintro ⟨hle, hdvd, hcnd⟩
      have h1 : min en (b + get_bucket_duration_delta bk) ≤ en := min_le_left _ _
      have h2 : b ≤ max st b := le_max_right _ _
      omega

/-- Claim C4: a timestamp is in `majority_buckets()` iff it is a bucket start (a
multiple of the bucket duration), its bucket interval lies (at least partly)
inside the window, and the overlap between the window and the bucket interval
is at least half the bucket length. -/
theorem majority_buckets_mem_iff (c : BaseTimeWindowConfig) (b : Int) :
    b ∈ majority_buckets c ↔
      (b % get_bucket_duration_delta c.bucket_duration = 0 ∧
       b < c.end_time ∧
       c.start_time < b + get_bucket_duration_delta c.bucket_duration ∧
       min c.end_time (b + get_bucket_duration_delta c.bucket_duration) -
           max c.start_time b ≥
         get_bucket_duration_delta c.bucket_duration / 2) := by
  have hD := delta_pos c.bucket_duration
  have hD2 := half_delta_pos c.bucket_duration
  have hm1 : 0 ≤ c.start_time % get_bucket_duration_delta c.bucket_duration :=
    Int.emod_nonneg _ (ne_of_gt hD)
  have hm2 : c.start_time % get_bucket_duration_delta c.bucket_duration <
      get_bucket_duration_delta c.bucket_duration := Int.emod_lt_of_pos _ hD
  have hfloor : get_bucket_duration_delta c.bucket_duration ∣
      (c.start_time - c.start_time % get_bucket_duration_delta c.bucket_duration) := by
    have h := Int.ediv_add_emod c.start_time (get_bucket_duration_delta c.bucket_duration)
    exact ⟨c.start_time / get_bucket_duration_delta c.bucket_duration, by linarith⟩
  simp only [majority_buckets, get_time_bucket_eq, mem_majorityLoop]
  constructor
  · rintro ⟨hle, hdvd, hcnd⟩
    refine ⟨?_, ?_, ?_, hcnd⟩
    · refine Int.emod_eq_zero_of_dvd ?_
      have hb : b = (b - (c.start_time -
          c.start_time % get_bucket_duration_delta c.bucket_duration)) +
          (c.start_time - c.start_time % get_bucket_duration_delta c.bucket_duration) := by
        ring
      rw [hb]
      exact dvd_add hdvd hfloor
    · have h1 : min c.end_time (b + get_bucket_duration_delta c.bucket_duration) ≤
          c.end_time := min_le_left _ _
      have h2 : b ≤ max c.start_time b := le_max_right _ _
      omega
    · have h1 : min c.end_time (b + get_bucket_duration_delta c.bucket_duration) ≤
          b + get_bucket_duration_delta c.bucket_duration := min_le_right _ _
      have h2 : c.start_time ≤ max c.start_time b := le_max_left _ _
      omega
  · rintro ⟨hmod0, hlt_en, hlt_st, hcnd⟩
    have hdvd_b : get_bucket_duration_delta c.bucket_duration ∣ b :=
      Int.dvd_of_emod_eq_zero hmod0
    refine ⟨?_, dvd_sub hdvd_b hfloor, hcnd⟩
    by_contra hcon
    push_neg at hcon
    have hpos : 0 < (c.start_time -
        c.start_time % get_bucket_duration_delta c.bucket_duration) - b := by omega
    have hdvd2 : get_bucket_duration_delta c.bucket_duration ∣
        ((c.start_time - c.start_time % get_bucket_duration_delta c.bucket_duration) - b) :=
      dvd_sub hfloor hdvd_b
    have := Int.le_of_dvd hpos hdvd2
    omega

/-- The loop of `majority_buckets` only ever keeps elements the loop of
`buckets` would also produce, in order. -/
theorem majorityLoop_sublist (st en : Int) (bk : BucketDuration) (curr : Int) :
    (majorityLoop st en bk curr).Sublist (bucketsLoop en bk curr) := by
  induction curr using majorityLoop.induct st en bk with
  | case1 curr hlt s0 e0 hcond ih =>
      rw [majorityLoop.eq_def, if_pos hlt]
      simp only [s0, e0] at hcond
      rw [if_pos hcond, bucketsLoop.eq_def, if_pos hlt]
      exact List.Sublist.cons₂ _ ih
  | case2 curr hlt s0 e0 hcond ih =>
      rw [majorityLoop.eq_def, if_pos hlt]
      simp only [s0, e0] at hcond
      rw [if_neg hcond, bucketsLoop.eq_def, if_pos hlt]
      exact List.Sublist.cons _ ih
  | case3 curr hlt =>
      rw [majorityLoop.eq_def, if_neg hlt, bucketsLoop.eq_def, if_neg hlt]

/-- Claim C8: `majority_buckets()` is a subsequence of `buckets()`. -/
theorem majority_buckets_sublist_buckets (c : BaseTimeWindowConfig) :
    (majority_buckets c).Sublist (buckets c) := by
  simp only [majority_buckets, buckets]
  exact majorityLoop_sublist _ _ _ _

/-- Claim C5: with no user-supplied start, the derived start is the floor of
`end_time` minus one bucket: it is bucket-aligned, at most `end - delta`, and
within one bucket of it. -/
theorem default_start_time_spec (end_time : Int) (bucket_duration : BucketDuration) :
    default_start_time none end_time bucket_duration %
        get_bucket_duration_delta bucket_duration = 0 ∧
    default_start_time none end_time bucket_duration ≤
      end_time - get_bucket_duration_delta bucket_duration ∧
    end_time - get_bucket_duration_delta bucket_duration -
        default_start_time none end_time bucket_duration <
      get_bucket_duration_delta bucket_duration := by
  have hD := delta_pos bucket_duration
  simp only [default_start_time, get_time_bucket_eq]
  have h1 : 0 ≤ (end_time - get_bucket_duration_delta bucket_duration) %
      get_bucket_duration_delta bucket_duration := Int.emod_nonneg _ (ne_of_gt hD)
  have h2 : (end_time - get_bucket_duration_delta bucket_duration) %
      get_bucket_duration_delta bucket_duration <
      get_bucket_duration_delta bucket_duration := Int.emod_lt_of_pos _ hD
  refine ⟨?_, by omega, by omega⟩
  refine Int.emod_eq_zero_of_dvd ?_
  have h := Int.ediv_add_emod (end_time - get_bucket_duration_delta bucket_duration)
    (get_bucket_duration_delta bucket_duration)
  exact ⟨(end_time - get_bucket_duration_delta bucket_duration) /
    get_bucket_duration_delta bucket_duration, by linarith⟩

end TimeWindowConfig

namespace TimeWindowConfig

/-- Claim C3, counterexample: for bucket_duration=day,
start_time=2024-01-01T13:00Z (1704114000000000 us),
end_time=2024-01-03T05:00Z (1704258000000000 us), `buckets()` does NOT return
`[2024-01-01T00:00Z, 2024-01-02T00:00Z]`: the loop also emits the partially
covered bucket 2024-01-03T00:00Z. -/
theorem buckets_day_window_counterexample :
    ¬ (buckets { bucket_duration := BucketDuration.DAY,
                 end_time := 1704258000000000,
                 start_time := 1704114000000000 } =
        [1704067200000000, 1704153600000000]) := by
  rw [buckets]
  norm_num [get_time_bucket_eq, delta_DAY, microsPerDay]
  rw [bucketsLoop.eq_def]
  norm_num [delta_DAY, microsPerDay]
  rw [bucketsLoop.eq_def]
  norm_num [delta_DAY, microsPerDay]
  rw [bucketsLoop.eq_def]
  norm_num [delta_DAY, microsPerDay]
  rw [bucketsLoop.eq_def]
  norm_num

/-- Claim C3, amended: for bucket_duration=day, start_time=2024-01-01T13:00Z,
end_time=2024-01-03T05:00Z, `buckets()` returns exactly
`[2024-01-01T00:00Z, 2024-01-02T00:00Z, 2024-01-03T00:00Z]` — the docstring
says partially contained buckets are included, and 2024-01-03T00:00Z < end. -/
theorem buckets_day_window_amended :
    buckets { bucket_duration := BucketDuration.DAY,
              end_time := 1704258000000000,
              start_time := 1704114000000000 } =
      [1704067200000000, 1704153600000000, 1704240000000000] := by
  rw [buckets]
  norm_num [get_time_bucket_eq, delta_DAY, microsPerDay]
  rw [bucketsLoop.eq_def]
  norm_num [delta_DAY, microsPerDay]
  rw [bucketsLoop.eq_def]
  norm_num [delta_DAY, microsPerDay]
  rw [bucketsLoop.eq_def]
  norm_num [delta_DAY, microsPerDay]
  rw [bucketsLoop.eq_def]
  norm_num

/-- Witness for claim C4: 2024-01-02T00:00Z is in the majority buckets of the
day window 2024-01-01T13:00Z .. 2024-01-03T05:00Z. -/
theorem majority_buckets_mem_iff_witness :
    (1704153600000000 : Int) ∈ majority_buckets
      { bucket_duration := BucketDuration.DAY,
        end_time := 1704258000000000,
        start_time := 1704114000000000 } :=
  (majority_buckets_mem_iff
    { bucket_duration := BucketDuration.DAY,
      end_time := 1704258000000000,
      start_time := 1704114000000000 } 1704153600000000).mpr (by decide)

/-- Witness for claim C5, at end_time=2024-01-03T05:00Z with day buckets. -/
theorem default_start_time_spec_witness :
    default_start_time none 1704258000000000 BucketDuration.DAY %
        get_bucket_duration_delta BucketDuration.DAY = 0 ∧
    default_start_time none 1704258000000000 BucketDuration.DAY ≤
      1704258000000000 - get_bucket_duration_delta BucketDuration.DAY ∧
    1704258000000000 - get_bucket_duration_delta BucketDuration.DAY -
        default_start_time none 1704258000000000 BucketDuration.DAY <
      get_bucket_duration_delta BucketDuration.DAY :=
  default_start_time_spec 1704258000000000 BucketDuration.DAY

/-- Claim C6: a supplied start/end timestamp passes `ensure_timestamps_in_utc`
unchanged iff its timezone is `timezone.utc`; otherwise validation raises a
`ValueError`. -/
theorem ensure_timestamps_in_utc_spec (v : TZDatetime) :
    (ensure_timestamps_in_utc v = Except.ok v ↔ v.tzinfo = utcTz) ∧
    ((∃ msg, ensure_timestamps_in_utc v = Except.error msg) ↔ v.tzinfo ≠ utcTz) := by
  by_cases htz : v.tzinfo = utcTz <;> simp [ensure_timestamps_in_utc, htz]

/-- Witness for claim C6: a UTC timestamp is accepted unchanged, a
+01:00-offset timestamp is rejected. -/
theorem ensure_timestamps_in_utc_spec_witness :
    (ensure_timestamps_in_utc ⟨0, some 0⟩ = Except.ok ⟨0, some 0⟩) ∧
    (∃ msg, ensure_timestamps_in_utc ⟨0, some 60⟩ = Except.error msg) :=
  ⟨(ensure_timestamps_in_utc_spec ⟨0, some 0⟩).1.mpr (by decide),
   (ensure_timestamps_in_utc_spec ⟨0, some 60⟩).2.mpr (by decide)⟩

/-- Witness for claim C8, on the day window 2024-01-01T13:00Z .. 2024-01-03T05:00Z. -/
theorem majority_buckets_sublist_buckets_witness :
    (majority_buckets { bucket_duration := BucketDuration.DAY,
                        end_time := 1704258000000000,
                        start_time := 1704114000000000 }).Sublist
      (buckets { bucket_duration := BucketDuration.DAY,
                 end_time := 1704258000000000,
                 start_time := 1704114000000000 }) :=
  majority_buckets_sublist_buckets
    { bucket_duration := BucketDuration.DAY,
      end_time := 1704258000000000,
      start_time := 1704114000000000 }

end TimeWindowConfig

namespace RedundantRunSkip

/-- Claim C1: `should_skip_this_run(cur_start_time_millis)` returns true iff
checkpointing is enabled, `ignore_old_state` (`force_rerun`) is not set, a
prior checkpoint (whose state is always present) exists, and
`cur_start_time_millis ≤` the stored `end_timestamp_millis`; the comparison is
`≤`, so equality at the boundary also skips. -/
theorem should_skip_this_run_iff (h : RedundantRunSkipHandler)
    (last_checkpoint : Option Checkpoint) (cur_start_time_millis : Int) :
    h.should_skip_this_run last_checkpoint cur_start_time_millis = true ↔
      (h.checkpointing_enabled = true ∧
       h.ignore_old_state_flag = false ∧
       ∃ cp, last_checkpoint = some cp ∧
         cur_start_time_millis ≤ cp.state.end_timestamp_millis) := by
  cases last_checkpoint with
  | none =>
      cases hE : h.checkpointing_enabled <;> cases hO : h.ignore_old_state_flag <;>
        simp [RedundantRunSkipHandler.should_skip_this_run,
          RedundantRunSkipHandler.is_checkpointing_enabled, hE, hO]
  | some cp =>
      cases hE : h.checkpointing_enabled <;> cases hO : h.ignore_old_state_flag <;>
        simp [RedundantRunSkipHandler.should_skip_this_run,
          RedundantRunSkipHandler.is_checkpointing_enabled, hE, hO]

/-- Witness for claim C1: exactly at the boundary (current start = stored end
= 100), the run is skipped. -/
theorem should_skip_this_run_iff_witness :
    RedundantRunSkipHandler.should_skip_this_run
      { pipeline_name := some "p",
        run_id := "r",
        checkpointing_enabled := true,
        stateful_ingestion_config :=
          some { ignore_old_state := false, ignore_new_state := false },
        job_id := "j" }
      (some { job_name := "j",
              pipeline_name := "p",
              run_id := "r0",
              state := { begin_timestamp_millis := 5,
                         end_timestamp_millis := 100 } })
      100 = true :=
  (should_skip_this_run_iff _ _ _).mpr ⟨rfl, rfl, _, rfl, by decide⟩

/-- Claim C9: `create_checkpoint` returns `None` exactly when checkpointing is
disabled or `ignore_new_state` is set; otherwise, with a non-None
`pipeline_name`, it returns a checkpoint whose state has
`begin_timestamp_millis = end_timestamp_millis = INVALID_TIMESTAMP_VALUE = 1`. -/
theorem create_checkpoint_spec (h : RedundantRunSkipHandler) :
    (h.create_checkpoint = Except.ok none ↔
      (h.checkpointing_enabled = false ∨ h.ignore_new_state_flag = true)) ∧
    (∀ pn : String, h.checkpointing_enabled = true →
      h.ignore_new_state_flag = false → h.pipeline_name = some pn →
      ∃ cp : Checkpoint, h.create_checkpoint = Except.ok (some cp) ∧
        cp.state.begin_timestamp_millis = INVALID_TIMESTAMP_VALUE ∧
        cp.state.end_timestamp_millis = INVALID_TIMESTAMP_VALUE ∧
        INVALID_TIMESTAMP_VALUE = 1) := by
  constructor
  · cases hE : h.checkpointing_enabled <;> cases hN : h.ignore_new_state_flag <;>
      cases hP : h.pipeline_name <;>
      simp [RedundantRunSkipHandler.create_checkpoint,
        RedundantRunSkipHandler.is_checkpointing_enabled, hE, hN, hP]
  · intro pn hE hN hP
    refine ⟨{ job_name := h.job_id,
              pipeline_name := pn,
              run_id := h.run_id,
              state := { begin_timestamp_millis := INVALID_TIMESTAMP_VALUE,
                         end_timestamp_millis := INVALID_TIMESTAMP_VALUE } },
      ?_, rfl, rfl, rfl⟩
    simp [RedundantRunSkipHandler.create_checkpoint,
      RedundantRunSkipHandler.is_checkpointing_enabled, hE, hN, hP]

/-- Witness for claim C9: with checkpointing enabled, `ignore_new_state`
unset and pipeline name "p", a sentinel checkpoint is produced. -/
theorem create_checkpoint_spec_witness :
    ∃ cp : Checkpoint,
      RedundantRunSkipHandler.create_checkpoint
        { pipeline_name := some "p",
          run_id := "r",
          checkpointing_enabled := true,
          stateful_ingestion_config :=
            some { ignore_old_state := false, ignore_new_state := false },
          job_id := "j" } = Except.ok (some cp) ∧
      cp.state.begin_timestamp_millis = INVALID_TIMESTAMP_VALUE ∧
      cp.state.end_timestamp_millis = INVALID_TIMESTAMP_VALUE ∧
      INVALID_TIMESTAMP_VALUE = 1 :=
  (create_checkpoint_spec
    { pipeline_name := some "p",
      run_id := "r",
      checkpointing_enabled := true,
      stateful_ingestion_config :=
        some { ignore_old_state := false, ignore_new_state := false },
      job_id := "j" }).2 "p" rfl rfl rfl

end RedundantRunSkip

namespace SnowflakeReport

/-- Invariant of a call sequence: if the `tags_scanned` counter equals the size of
the (duplicate-free) `_scanned_tags` set, this persists through any sequence
of `report_entity_scanned` calls, and the final set of scanned tags is the
initial one united with the tag names of the sequence. -/
lemma runCalls_tags_invariant (cs : List (String × String)) :
    ∀ r : SnowflakeV2Report, r.scanned_tags.Nodup →
      r.tags_scanned = r.scanned_tags.length →
      ((runCalls r cs).scanned_tags.Nodup ∧
       (runCalls r cs).tags_scanned = (runCalls r cs).scanned_tags.length ∧
       (runCalls r cs).scanned_tags.toFinset =
         r.scanned_tags.toFinset ∪ (tagNames cs).toFinset) := by
  induction cs with
  | nil =>
      intro r hnd hlen
      exact ⟨hnd, hlen, by simp [runCalls, tagNames]⟩
  | cons c cs ih =>
      intro r hnd hlen
      obtain ⟨name, t⟩ := c
      have hstep : runCalls r ((name, t) :: cs) = runCalls (applyCall r (name, t)) cs := rfl
      rw [hstep]
      by_cases h1 : t = "table"
      · subst h1
        have ha : applyCall r (name, "table") =
            { r with tables_scanned := r.tables_scanned + 1 } := by
          simp [applyCall, SnowflakeV2Report.report_entity_scanned]
        have htn : tagNames ((name, "table") :: cs) = tagNames cs := by
          simp [tagNames]
        rw [ha, htn]
        exact ih _ hnd hlen
      by_cases h2 : t = "view"
      · subst h2
        have ha : applyCall r (name, "view") =
            { r with views_scanned := r.views_scanned + 1 } := by
          simp [applyCall, SnowflakeV2Report.report_entity_scanned]
        have htn : tagNames ((name, "view") :: cs) = tagNames cs := by
          simp [tagNames]
        rw [ha, htn]
        exact ih _ hnd hlen
      by_cases h3 : t = "schema"
      · subst h3
        have ha : applyCall r (name, "schema") =
            { r with schemas_scanned := r.schemas_scanned + 1 } := by
          simp [applyCall, SnowflakeV2Report.report_entity_scanned]
        have htn : tagNames ((name, "schema") :: cs) = tagNames cs := by
          simp [tagNames]
        rw [ha, htn]
        exact ih _ hnd hlen
      by_cases h4 : t = "database"
      · subst h4
        have ha : applyCall r (name, "database") =
            { r with databases_scanned := r.databases_scanned + 1 } := by
          simp [applyCall, SnowflakeV2Report.report_entity_scanned]
        have htn : tagNames ((name, "database") :: cs) = tagNames cs := by
          simp [tagNames]
        rw [ha, htn]
        exact ih _ hnd hlen
      by_cases h5 : t = "tag"
      · subst h5
        have htn : tagNames ((name, "tag") :: cs) = name :: tagNames cs := by
          simp [tagNames]
        by_cases hmem : name ∈ r.scanned_tags
        · have ha : applyCall r (name, "tag") = r := by
            simp [applyCall, SnowflakeV2Report.report_entity_scanned,
              SnowflakeV2Report.is_tag_scanned, hmem]
          rw [ha, htn]
          obtain ⟨ha1, ha2, ha3⟩ := ih r hnd hlen
          refine ⟨ha1, ha2, ?_⟩
          rw [ha3]
          have hmem2 : name ∈ r.scanned_tags.toFinset ∪ (tagNames cs).toFinset :=
            Finset.mem_union_left _ (List.mem_toFinset.mpr hmem)
          rw [List.toFinset_cons, Finset.union_insert, Finset.insert_eq_self.mpr hmem2]
        · have ha : applyCall r (name, "tag") =
              { r with scanned_tags := name :: r.scanned_tags,
                       tags_scanned := r.tags_scanned + 1 } := by
            simp [applyCall, SnowflakeV2Report.report_entity_scanned,
              SnowflakeV2Report.is_tag_scanned, hmem]
          rw [ha, htn]
          have hnd2 : (name :: r.scanned_tags).Nodup :=
            List.nodup_cons.mpr ⟨hmem, hnd⟩
          have hlen2 : r.tags_scanned + 1 = (name :: r.scanned_tags).length := by
            simp [hlen]
          obtain ⟨ha1, ha2, ha3⟩ := ih
            { r with scanned_tags := name :: r.scanned_tags,
                     tags_scanned := r.tags_scanned + 1 } hnd2 hlen2
          refine ⟨ha1, ha2, ?_⟩
          rw [ha3]
          rw [List.toFinset_cons, List.toFinset_cons, Finset.insert_union,
            Finset.union_insert]
      · have ha : applyCall r (name, t) = r := by
          simp [applyCall, SnowflakeV2Report.report_entity_scanned, h1, h2, h3, h4, h5]
        have htn : tagNames ((name, t) :: cs) = tagNames cs := by
          simp [tagNames, h5]
        rw [ha, htn]
        exact ih r hnd hlen

/-- Claim C10: over any sequence of `report_entity_scanned` calls on a fresh
report, `tags_scanned` equals the number of distinct names passed with
ent_type="tag" (repeats never increment); a call with an unknown ent_type
raises `KeyError` and, as a raising call, leaves the report unchanged. -/
theorem report_entity_scanned_tags_spec (cs : List (String × String)) :
    (runCalls initSnowflakeV2Report cs).tags_scanned =
      (tagNames cs).toFinset.card ∧
    (∀ (r : SnowflakeV2Report) (name t : String),
      t ∉ (["table", "view", "schema", "database", "tag"] : List String) →
      (∃ msg, r.report_entity_scanned name t = Except.error msg) ∧
      applyCall r (name, t) = r) := by
  constructor
  · obtain ⟨h1, h2, h3⟩ := runCalls_tags_invariant cs initSnowflakeV2Report
      (by simp [initSnowflakeV2Report]) (by simp [initSnowflakeV2Report])
    calc (runCalls initSnowflakeV2Report cs).tags_scanned
        = (runCalls initSnowflakeV2Report cs).scanned_tags.length := h2
      _ = (runCalls initSnowflakeV2Report cs).scanned_tags.toFinset.card :=
          (List.toFinset_card_of_nodup h1).symm
      _ = (initSnowflakeV2Report.scanned_tags.toFinset ∪
            (tagNames cs).toFinset).card := by rw [h3]
      _ = (tagNames cs).toFinset.card := by simp [initSnowflakeV2Report]
  · intro r name t ht
    simp only [List.mem_cons, List.not_mem_nil, or_false, not_or] at ht
    obtain ⟨ht1, ht2, ht3, ht4, ht5⟩ := ht
    constructor
    · exact ⟨"Unknown entity " ++ t ++ ".",
        by simp [SnowflakeV2Report.report_entity_scanned, ht1, ht2, ht3, ht4, ht5]⟩
    · simp [applyCall, SnowflakeV2Report.report_entity_scanned, ht1, ht2, ht3, ht4, ht5]

/-- Witness for claim C10: the sequence tag a, tag a, tag b, table c yields
`tags_scanned = 2`, and ent_type "frog" raises. -/
theorem report_entity_scanned_tags_spec_witness :
    (runCalls initSnowflakeV2Report
        [("a", "tag"), ("a", "tag"), ("b", "tag"), ("c", "table")]).tags_scanned = 2 ∧
    (∃ msg, initSnowflakeV2Report.report_entity_scanned "a" "frog" =
      Except.error msg) := by
  constructor
  · have h := (report_entity_scanned_tags_spec
      [("a", "tag"), ("a", "tag"), ("b", "tag"), ("c", "table")]).1
    rw [h]
    decide
  · exact ((report_entity_scanned_tags_spec []).2 initSnowflakeV2Report "a" "frog"
      (by decide)).1

end SnowflakeReport

namespace BigquerySchema

/-- Per-row behaviour of `get_tables_for_dataset` over a whole cursor: every
successfully mapped row is yielded, every failing row produces one log line
and (iff a report is provided) one report warning, and nothing aborts. -/
lemma get_tables_for_dataset_spec {Row Table : Type}
    (make : Row → Except String Table) (name_of : Row → String)
    (project_id dataset_name : String) (report : Option Unit) (rows : List Row) :
    (get_tables_for_dataset make name_of project_id dataset_name report rows).yielded =
      rows.filterMap (fun r => exceptToOption (make r)) ∧
    (get_tables_for_dataset make name_of project_id dataset_name report rows).logs.length =
      (rows.filter (fun r => !exceptIsOk (make r))).length ∧
    (get_tables_for_dataset make name_of project_id dataset_name
        report rows).report_warnings.length =
      (if report.isSome then
        (rows.filter (fun r => !exceptIsOk (make r))).length
       else 0) := by
  induction rows with
  | nil => simp [get_tables_for_dataset]
  | cons r rest ih =>
      obtain ⟨ih1, ih2, ih3⟩ := ih
      cases hm : make r with
      | ok t =>
          simp [get_tables_for_dataset, hm, ih1, ih2, ih3, exceptToOption,
            exceptIsOk, List.filterMap_cons, List.filter_cons]
      | error e =>
          cases report with
          | none =>
              simp [get_tables_for_dataset, hm, ih1, ih2, ih3, exceptToOption,
                exceptIsOk, List.filterMap_cons, List.filter_cons]
          | some u =>
              simp [get_tables_for_dataset, hm, ih1, ih2, ih3, exceptToOption,
                exceptIsOk, List.filterMap_cons, List.filter_cons]

/-- Per-row behaviour of `get_views_for_dataset`, same shape as for tables. -/
lemma get_views_for_dataset_spec {Row View : Type}
    (make : Row → Except String View) (name_of : Row → String)
    (project_id dataset_name : String) (report : Option Unit) (rows : List Row) :
    (get_views_for_dataset make name_of project_id dataset_name report rows).yielded =
      rows.filterMap (fun r => exceptToOption (make r)) ∧
    (get_views_for_dataset make name_of project_id dataset_name report rows).logs.length =
      (rows.filter (fun r => !exceptIsOk (make r))).length ∧
    (get_views_for_dataset make name_of project_id dataset_name
        report rows).report_warnings.length =
      (if report.isSome then
        (rows.filter (fun r => !exceptIsOk (make r))).length
       else 0) := by
  induction rows with
  | nil => simp [get_views_for_dataset]
  | cons r rest ih =>
      obtain ⟨ih1, ih2, ih3⟩ := ih
      cases hm : make r with
      | ok v =>
          simp [get_views_for_dataset, hm, ih1, ih2, ih3, exceptToOption,
            exceptIsOk, List.filterMap_cons, List.filter_cons]
      | error e =>
          cases report with
          | none =>
              simp [get_views_for_dataset, hm, ih1, ih2, ih3, exceptToOption,
                exceptIsOk, List.filterMap_cons, List.filter_cons]
          | some u =>
              simp [get_views_for_dataset, hm, ih1, ih2, ih3, exceptToOption,
                exceptIsOk, List.filterMap_cons, List.filter_cons]

/-- Claim C7: in `get_tables_for_dataset` and `get_views_for_dataset`, a row
whose mapping raises is logged, reported as a warning exactly when a report is
provided, and skipped; every remaining row is still mapped and yielded, so a
single failing row never aborts the scan. -/
theorem per_row_mapping_failures_never_abort {Row Table View : Type}
    (make_bigquery_table : Row → Except String Table)
    (make_bigquery_view : Row → Except String View)
    (name_of : Row → String) (project_id dataset_name : String)
    (report : Option Unit) (rows : List Row) :
    ((get_tables_for_dataset make_bigquery_table name_of project_id dataset_name
        report rows).yielded =
        rows.filterMap (fun r => exceptToOption (make_bigquery_table r)) ∧
     (get_tables_for_dataset make_bigquery_table name_of project_id dataset_name
        report rows).logs.length =
        (rows.filter (fun r => !exceptIsOk (make_bigquery_table r))).length ∧
     (get_tables_for_dataset make_bigquery_table name_of project_id dataset_name
        report rows).report_warnings.length =
        (if report.isSome then
          (rows.filter (fun r => !exceptIsOk (make_bigquery_table r))).length
         else 0)) ∧
    ((get_views_for_dataset make_bigquery_view name_of project_id dataset_name
        report rows).yielded =
        rows.filterMap (fun r => exceptToOption (make_bigquery_view r)) ∧
     (get_views_for_dataset make_bigquery_view name_of project_id dataset_name
        report rows).logs.length =
        (rows.filter (fun r => !exceptIsOk (make_bigquery_view r))).length ∧
     (get_views_for_dataset make_bigquery_view name_of project_id dataset_name
        report rows).report_warnings.length =
        (if report.isSome then
          (rows.filter (fun r => !exceptIsOk (make_bigquery_view r))).length
         else 0)) :=
  ⟨get_tables_for_dataset_spec make_bigquery_table name_of project_id dataset_name
      report rows,
   get_views_for_dataset_spec make_bigquery_view name_of project_id dataset_name
      report rows⟩

/-- Witness for claim C7: of three rows with the middle one failing, the two
good rows are yielded, one log line and one report warning are produced. -/
theorem per_row_mapping_failures_never_abort_witness :
    (get_tables_for_dataset
        (fun n : Nat => if n = 1 then Except.error "boom" else Except.ok n)
        (fun n : Nat => toString n) "p" "d" (some ()) [0, 1, 2]).yielded = [0, 2] ∧
    (get_tables_for_dataset
        (fun n : Nat => if n = 1 then Except.error "boom" else Except.ok n)
        (fun n : Nat => toString n) "p" "d" (some ()) [0, 1, 2]).logs.length = 1 ∧
    (get_tables_for_dataset
        (fun n : Nat => if n = 1 then Except.error "boom" else Except.ok n)
        (fun n : Nat => toString n) "p" "d" (some ()) [0, 1, 2]).report_warnings.length = 1 ∧
    (get_views_for_dataset
        (fun n : Nat => if n = 1 then Except.error "boom" else Except.ok (toString n))
        (fun n : Nat => toString n) "p" "d" (some ()) [0, 1, 2]).yielded = ["0", "2"] := by
  obtain ⟨⟨ht1, ht2, ht3⟩, ⟨hv1, hv2, hv3⟩⟩ :=
    per_row_mapping_failures_never_abort
      (fun n : Nat => if n = 1 then Except.error "boom" else Except.ok n)
      (fun n : Nat => if n = 1 then Except.error "boom" else Except.ok (toString n))
      (fun n : Nat => toString n) "p" "d" (some ()) [0, 1, 2]
  refine ⟨?_, ?_, ?_, ?_⟩
  · rw [ht1]; decide
  · rw [ht2]; decide
  · rw [ht3]; decide
  · rw [hv1]; decide

/-- Claim C2, code evidence: with column_limit = 1 and two rows of the same
table t, `get_columns_for_dataset` keeps one column and logs once, but
`get_columns_for_table` appends BOTH columns and logs nothing — its
`column.table_name in columns` membership test compares a str against
BigqueryColumn values of a list and is always False, so the truncation branch
is unreachable. -/
theorem column_limit_truncation_divergence :
    ((get_columns_for_dataset "p" "d" 1 [c2Row1, c2Row2]).columns =
        [("t", [makeColumn c2Row1])] ∧
     (get_columns_for_dataset "p" "d" 1 [c2Row1, c2Row2]).logs.length = 1) ∧
    (get_columns_for_table (some 1) [c2Row1, c2Row2] =
      Except.ok { columns := [makeColumn c2Row1, makeColumn c2Row2],
                  last_seen_table := "t",
                  logs := [] }) :=
  ⟨⟨rfl, rfl⟩, rfl⟩

end BigquerySchema
